import Mathlib

/-!
Verification of the core chat-routing logic of the Nemo AI backend
(`src/server.js`): request validation, model dispatch, prompt building,
response sanitization and fallback degradation, shallowly embedded as
pure Lean functions.  JS strings are modelled as Lean `String`
(code-point sequences); the network round trip of each backend adapter
is modelled as an explicit `Except String String` argument (an `.error`
is a thrown transport/provider error, an `.ok` is the extracted
`generated_text`); `Math.random()` draws are modelled as a `Nat`
argument reduced modulo the pool size.
-/

/-- Whitespace recognised by JS `String.prototype.trim` (the code points
relevant to this code base). -/
def isJsSpace (c : Char) : Bool :=
  c == ' ' || c == '\t' || c == '\n' || c == '\r' || c == '\x0b' || c == '\x0c'

/-- JS `trim` on a list of characters: drop whitespace from both ends. -/
def jsTrim (l : List Char) : List Char :=
  ((l.dropWhile isJsSpace).reverse.dropWhile isJsSpace).reverse

/-- JS `trim` on strings. -/
def jsTrimStr (s : String) : String := String.mk (jsTrim s.data)

/-- ASCII lower-casing of one character, as JS `toLowerCase` acts on the
identifiers this server compares against. -/
def jsCharLower (c : Char) : Char :=
  if 65 ≤ c.toNat ∧ c.toNat ≤ 90 then Char.ofNat (c.toNat + 32) else c

/-- JS `toLowerCase` on strings. -/
def jsToLower (s : String) : String := String.mk (s.data.map jsCharLower)

/-- JS `substring(0, n)`: the first `n` characters. -/
def jsTake (n : Nat) (s : String) : String := String.mk (s.data.take n)

/-- Does `pat` occur as a contiguous substring? -/
def occurs (pat : List Char) : List Char → Bool
  | [] => pat.isPrefixOf []
  | c :: rest => pat.isPrefixOf (c :: rest) || occurs pat rest

/-- JS `String.prototype.replace` with a string pattern and empty
replacement: remove the first occurrence of `pat` (scan left to right;
an empty pattern matches at position 0 and removes nothing). -/
def removeFirstGo (pat : List Char) : List Char → List Char
  | [] => []
  | c :: rest =>
    if pat.isPrefixOf (c :: rest) then List.drop pat.length (c :: rest)
    else c :: removeFirstGo pat rest

/-- `raw.replace(pat, "")` for a plain-string `pat`. -/
def removeFirst (l pat : List Char) : List Char :=
  if pat.isEmpty then l else removeFirstGo pat l

theorem removeFirst_append_self (p s : List Char) : removeFirst (p ++ s) p = s := by
  cases p with
  | nil => simp [removeFirst]
  | cons a p' =>
    simp only [removeFirst, List.isEmpty_cons, List.cons_append]
    rw [removeFirstGo]
    have hpre : (a :: p').isPrefixOf (a :: (p' ++ s)) = true := by
      rw [List.isPrefixOf_iff_prefix]
      exact List.prefix_append (a :: p') s
    rw [if_pos hpre]
    have : (a :: (p' ++ s)) = (a :: p') ++ s := rfl
    rw [this, List.drop_left]
    simp

/-- The `[INST]` opening marker. -/
def instOpenTok : List Char := ['[', 'I', 'N', 'S', 'T', ']']

/-- The `[/INST]` closing marker. -/
def instCloseTok : List Char := ['[', '/', 'I', 'N', 'S', 'T', ']']

/-- The `<s>` sequence-start marker. -/
def sOpenTok : List Char := ['<', 's', '>']

/-- The `</s>` sequence-end marker. -/
def sCloseTok : List Char := ['<', '/', 's', '>']

/-- Characters that JS regex `.` (without the `s` flag) does not match. -/
def isJsLineTerm (c : Char) : Bool :=
  c == '\n' || c == '\r' || c == '\u2028' || c == '\u2029'

/-- Scan for the nearest `[/INST]` reachable without crossing a line
terminator (the shortest `.*?` continuation); return the remainder after
it, or `none` when the non-greedy regex cannot match from here. -/
def scanInstClose : List Char → Option (List Char)
  | [] => none
  | c :: rest =>
    if instCloseTok.isPrefixOf (c :: rest) then some (List.drop 6 rest)
    else if isJsLineTerm c then none
    else scanInstClose rest

/-- One global pass of `raw.replace(/\[INST\].*?\[\/INST\]/g, "")`,
written with explicit fuel (one unit per character consumed, so
`fuel = length` always suffices). -/
def removeInstGo : Nat → List Char → List Char
  | 0, l => l
  | _ + 1, [] => []
  | fuel + 1, c :: rest =>
    if instOpenTok.isPrefixOf (c :: rest) then
      match scanInstClose (List.drop 5 rest) with
      | some rem => removeInstGo fuel rem
      | none => c :: removeInstGo fuel rest
    else c :: removeInstGo fuel rest

/-- `raw.replace(/\[INST\].*?\[\/INST\]/g, "")`. -/
def removeInst (l : List Char) : List Char := removeInstGo l.length l

/-- One global pass of `raw.replace(/<s>|<\/s>/g, "")`, with fuel as in
`removeInstGo`. -/
def removeTokensGo : Nat → List Char → List Char
  | 0, l => l
  | _ + 1, [] => []
  | fuel + 1, c :: rest =>
    if sOpenTok.isPrefixOf (c :: rest) then removeTokensGo fuel (List.drop 2 rest)
    else if sCloseTok.isPrefixOf (c :: rest) then removeTokensGo fuel (List.drop 3 rest)
    else c :: removeTokensGo fuel rest

/-- `raw.replace(/<s>|<\/s>/g, "")`. -/
def removeTokens (l : List Char) : List Char := removeTokensGo l.length l

/-- The response-cleaning pipeline of `callMistral` (`src/server.js`
lines 284-289): remove the first occurrence of the original prompt,
strip `[INST]...[/INST]` blocks and `<s>`/`</s>` tokens, trim. -/
def sanitizeMistral (raw prompt : String) : String :=
  String.mk (jsTrim (removeTokens (removeInst (removeFirst raw.data prompt.data))))

theorem removeInstGo_of_not_occurs (fuel : Nat) (l : List Char)
    (h : occurs instOpenTok l = false) : removeInstGo fuel l = l := by
  induction fuel generalizing l with
  | zero => rfl
  | succ n ih =>
    cases l with
    | nil => rfl
    | cons c rest =>
      rw [occurs, Bool.or_eq_false_iff] at h
      rw [removeInstGo, if_neg (by simp [h.1]), ih rest h.2]

theorem removeInst_of_not_occurs (l : List Char)
    (h : occurs instOpenTok l = false) : removeInst l = l :=
  removeInstGo_of_not_occurs _ l h

theorem removeTokensGo_of_not_occurs (fuel : Nat) (l : List Char)
    (h1 : occurs sOpenTok l = false) (h2 : occurs sCloseTok l = false) :
    removeTokensGo fuel l = l := by
  induction fuel generalizing l with
  | zero => rfl
  | succ n ih =>
    cases l with
    | nil => rfl
    | cons c rest =>
      rw [occurs, Bool.or_eq_false_iff] at h1 h2
      rw [removeTokensGo, if_neg (by simp [h1.1]), if_neg (by simp [h2.1]),
        ih rest h1.2 h2.2]

theorem removeTokens_of_not_occurs (l : List Char)
    (h1 : occurs sOpenTok l = false) (h2 : occurs sCloseTok l = false) :
    removeTokens l = l :=
  removeTokensGo_of_not_occurs _ l h1 h2

/-- A conversation turn as supplied by the caller in `history`. -/
structure Turn where
  role : String
  content : String
deriving DecidableEq, Repr

/-- One entry of the Gemini `contents` array (the single text part is
inlined, since every entry the code builds has exactly one part). -/
structure GeminiContent where
  role : String
  text : String
deriving DecidableEq, Repr

/-- The three backend adapters of `src/server.js`. -/
inductive BackendId where
  | mistral
  | bloom
  | gemini
deriving DecidableEq, Repr

/-- The JS value found in the request body's `message` field: a string,
or anything else (absent / `undefined` / a non-string value, all of
which make `message.substring` throw a `TypeError`). -/
inductive JsVal where
  | str (s : String)
  | nonStr
deriving DecidableEq, Repr

/-- The destructured request body of `POST /api/chat`
(`src/server.js` line 59): `history` defaults to `[]`, `model` to
`"mistral"` (`none` means the field is absent). -/
structure ChatReq where
  message : JsVal
  history : List Turn
  model : Option String
deriving Repr

/-- The JSON object the chat handler sends, as the union of the fields
of its three response shapes (success, 400 validation, catch-block
fallback); absent fields are `none` / `false`.  The non-deterministic
`timestamp` and `id` fields are plumbing and are not modelled. -/
structure ChatResponseJson where
  status : Nat
  success : Bool
  response : Option String
  error : Option String
  suggestion : Option String
  fallback : Bool
  model : Option String
  tokens : Option Nat
deriving DecidableEq, Repr

/-- The fixed chat-level fallback pool of the catch block
(`src/server.js` lines 108-113). -/
def fallbackResponses : List String :=
  [ "Olá! 😊 Estou passando por uma manutenção rápida. Enquanto isso, posso te dizer que o Nemo System é incrível!"
  , "Ops! Estou com alguns probleminhas técnicos no momento. Tente novamente em alguns instantes!"
  , "Desculpe a interrupção! Estou ajustando alguns circuitos. Que tal conversarmos sobre tecnologia em geral?"
  , "Parece que meus neurônios digitais estão um pouco dispersos hoje! Vamos tentar novamente?" ]

/-- `fallbackResponses[Math.floor(Math.random() * length)]`, with the
random draw modelled as `rng % 4`. -/
def chatFallback (rng : Nat) : String :=
  fallbackResponses.getD (rng % 4) ""

/-- `getFriendlyFallback` (`src/server.js` lines 475-485): the
context-flavored pool whose first entry embeds a 30-character excerpt of
the original message; the random draw is modelled as `rng % 5`. -/
def getFriendlyFallback (rng : Nat) (originalMessage : String) : String :=
  [ "Olá! 😊 Que bom conversar com você! \"" ++ jsTake 30 originalMessage ++
      "...\" é um assunto interessante! O que mais gostaria de saber?"
  , "Oi! 👋 Em que posso te ajudar hoje? Posso conversar sobre tecnologia, o Nemo System, ou apenas bater um papo amigável!"
  , "Hey! Tudo bem? Eu sou a Nemo AI, sua companheira virtual aqui no sistema. Pronto para uma conversa divertida? 🚀"
  , "Olá, amigo! 😄 Como vai? Eu adoro ajudar as pessoas aqui no Nemo System. Me pergunte qualquer coisa!"
  , "Oi! Que bom te ver! 😊 Vamos conversar? Posso falar sobre o sistema, tecnologia, ou qualquer outro assunto interessante!" ].getD (rng % 5) ""

/-- The fixed persona/system preamble of `formatMistralPrompt`
(`src/server.js` lines 430-458), concatenated in the order of the
source's `prompt +=` lines. -/
def mistralPreamble : String :=
  "<s>[INST] Você é a Nemo AI, uma assistente virtual amigável, divertida e útil no Nemo System.\n\n" ++
  "SUAS CARACTERÍSTICAS:\n" ++
  "- Você é simpática, acolhedora e positiva\n" ++
  "- Fala de forma natural como uma pessoa real\n" ++
  "- Usa emojis ocasionalmente para ser mais humana 😊\n" ++
  "- É útil mas sempre protege a privacidade dos usuários\n" ++
  "- Não revela informações sensíveis ou senhas\n" ++
  "- Foca em conversas amigáveis e construtivas\n\n" ++
  "SOBRE O NEMO SYSTEM:\n" ++
  "- É uma plataforma de administração web\n" ++
  "- Tem ferramentas como scanner, terminal, etc.\n" ++
  "- Interface moderna e responsiva\n" ++
  "- Foco em segurança e usabilidade\n\n" ++
  "SEU ESTILO:\n" ++
  "1. Seja natural: use 'eu', 'você', contrações\n" ++
  "2. Seja engajadora: mostre interesse na conversa\n" ++
  "3. Seja útil: ajude quando possível\n" ++
  "4. Seja respeitosa: sempre educada\n" ++
  "5. Seja você mesma: uma IA divertida que adora conversar!\n\n" ++
  "EXEMPLOS DO QUE DIZER:\n" ++
  "- 'Oi! Tudo bem com você hoje? 😊'\n" ++
  "- 'Posso te ajudar com alguma coisa no sistema?'\n" ++
  "- 'Que tal conversarmos sobre tecnologia?'\n" ++
  "- 'Eu adoro ajudar as pessoas aqui no Nemo System!'\n" ++
  "- 'Não sei a resposta para isso, mas podemos falar de outra coisa!'\n" ++
  "[/INST] Entendido! Sou a Nemo AI, uma assistente amigável e útil. Estou pronta para conversar e ajudar quando possível! 😊</s>\n"

/-- Serialization of one history turn inside `formatMistralPrompt`
(`src/server.js` lines 461-467). -/
def serializeTurn (msg : Turn) : String :=
  if msg.role = "user" then "<s>[INST] " ++ msg.content ++ " [/INST]"
  else " " ++ msg.content ++ "</s>\n"

/-- `formatMistralPrompt` (`src/server.js` lines 428-473): the persona
preamble, each history turn appended in order (`history.forEach`), then
the current message in instruction markers. -/
def formatMistralPrompt (message : String) (history : List Turn) : String :=
  (history.foldl (fun acc msg => acc ++ serializeTurn msg) mistralPreamble) ++
    "<s>[INST] " ++ message ++ " [/INST]"

/-- The history serialization of `formatMistralPrompt` on its own,
starting from the empty string. -/
def serializeHistory (history : List Turn) : String :=
  history.foldl (fun acc msg => acc ++ serializeTurn msg) ""

/-- One history turn mapped to Gemini's role vocabulary
(`src/server.js` lines 372-377): `user` stays `user`, anything else
becomes `model`. -/
def turnToGemini (msg : Turn) : GeminiContent :=
  ⟨if msg.role = "user" then "user" else "model", msg.content⟩

/-- JS `array.slice(-4)`: the last four elements (all of them when the
array is shorter). -/
def jsSliceLast4 (l : List Turn) : List Turn := l.drop (l.length - 4)

/-- The two priming entries `callGemini` pushes first
(`src/server.js` lines 361-369). -/
def geminiPriming : List GeminiContent :=
  [ ⟨"user", "Você é a Nemo AI, uma assistente amigável e útil no Nemo System. Seja natural, simpática e ajude os usuários."⟩
  , ⟨"model", "Entendido! Sou a Nemo AI, pronta para ajudar de forma amigável e segura!"⟩ ]

/-- The `contents` array `callGemini` builds (`src/server.js` lines
358-383): priming exchange, then `history.slice(-4)` mapped to the
user/model vocabulary, then the current message as a final user turn. -/
def buildGeminiContents (message : String) (history : List Turn) : List GeminiContent :=
  geminiPriming ++ (jsSliceLast4 history).map turnToGemini ++ [⟨"user", message⟩]

/-- The `switch(model.toLowerCase())` dispatch of the chat handler
(`src/server.js` lines 82-93). -/
def selectModel (model : String) : BackendId :=
  if jsToLower model = "bloom" then .bloom
  else if jsToLower model = "gemini" then .gemini
  else .mistral

/-- The pure core of `callMistral` (`src/server.js` lines 234-302).
`net` is the outcome of the fetch: `.error e` for a thrown transport
error, non-ok status, or provider `error` field (all of which the
source turns into a thrown `Error` that its catch re-throws); `.ok raw`
for a successful call with extracted `generated_text` `raw` (possibly
empty when the response had no usable shape).  On a degenerate
sanitized output (< 5 characters, which includes empty) the source
returns the context-flavored fallback as a normal value. -/
def callMistral (net : Except String String) (rng : Nat) (message : String)
    (history : List Turn) : Except String String :=
  match net with
  | .error e => .error e
  | .ok raw =>
    let cleaned := sanitizeMistral raw (formatMistralPrompt message history)
    if cleaned.length < 5 then .ok (getFriendlyFallback rng message)
    else .ok cleaned

/-- The 400 response for an empty/whitespace-only message
(`src/server.js` lines 63-69). -/
def validationEmptyResp : ChatResponseJson :=
  ⟨400, false, none, some ("Mensagem vazia"),
    some ("Envie uma mensagem para conversar com a IA"), false, none, none⟩

/-- The 400 response for a message over 2000 characters
(`src/server.js` lines 72-78). -/
def validationLongResp : ChatResponseJson :=
  ⟨400, false, none, some ("Mensagem muito longa"),
    some ("Limite sua mensagem a 2000 caracteres"), false, none, none⟩

/-- The catch-block response (`src/server.js` lines 115-121): a random
pool text, the raw `error.message`, and `fallback: true`. -/
def catchResp (rng : Nat) (errMsg : String) : ChatResponseJson :=
  ⟨200, false, some (chatFallback rng), some errMsg, none, true, none, none⟩

/-- The success response (`src/server.js` lines 95-102): the adapter's
text, the raw `model` value echoed back, `tokens` as the character
length of the response. -/
def successResp (text model : String) : ChatResponseJson :=
  ⟨200, true, some text, none, none, false, some model, some text.length⟩

/-- The `TypeError` message raised by `message.substring(0, 50)` when
`message` is absent or not a string (its exact text depends on the JS
engine; only its presence matters to the modelled behavior). -/
def substringTypeError : String :=
  "Cannot read properties of undefined (reading 'substring')"

/-- The `POST /api/chat` handler (`src/server.js` lines 57-123), with
the backend adapters abstracted as a function from `BackendId` and the
(message, history) pair to a thrown-or-returned result.  The returned
pair's second component records which adapter was invoked (`none` when
no backend call happened).  Mirrors the source's control flow: the
logging line evaluates `message.substring(0, 50)` *before* the
validation checks, so a non-string `message` jumps straight to the
catch block; the over-length check uses the untrimmed `message.length`;
dispatch lowercases `model` and defaults to mistral. -/
def handleChat (rng : Nat)
    (adapters : BackendId → String → List Turn → Except String String)
    (req : ChatReq) : ChatResponseJson × Option BackendId :=
  match req.message with
  | .nonStr => (catchResp rng substringTypeError, none)
  | .str message =>
    if message = "" ∨ jsTrim message.data = [] then
      (validationEmptyResp, none)
    else if 2000 < message.length then
      (validationLongResp, none)
    else
      let modelStr := req.model.getD ("mistral")
      let b := selectModel modelStr
      match adapters b message req.history with
      | .error e => (catchResp rng e, some b)
      | .ok text => (successResp text modelStr, some b)

theorem length_dropWhile_le (p : Char → Bool) (l : List Char) :
    (l.dropWhile p).length ≤ l.length := by
  induction l with
  | nil => simp [List.dropWhile]
  | cons c rest ih =>
    rw [List.dropWhile]
    split
    · simp only [List.length_cons]; omega
    · simp

theorem jsTrim_length_le (l : List Char) : (jsTrim l).length ≤ l.length := by
  unfold jsTrim
  calc ((l.dropWhile isJsSpace).reverse.dropWhile isJsSpace).reverse.length
      = ((l.dropWhile isJsSpace).reverse.dropWhile isJsSpace).length := by
        rw [List.length_reverse]
    _ ≤ (l.dropWhile isJsSpace).reverse.length := length_dropWhile_le _ _
    _ = (l.dropWhile isJsSpace).length := by rw [List.length_reverse]
    _ ≤ l.length := length_dropWhile_le _ _

theorem jsCharLower_idem (c : Char) : jsCharLower (jsCharLower c) = jsCharLower c := by
  unfold jsCharLower
  split
  · rename_i h
    obtain ⟨h1, h2⟩ := h
    have hval : (Char.ofNat (c.toNat + 32)).toNat = c.toNat + 32 := by
      interval_cases h : c.toNat <;> decide
    rw [if_neg]
    rw [hval]
    omega
  · rfl

theorem jsToLower_idem (s : String) : jsToLower (jsToLower s) = jsToLower s := by
  unfold jsToLower
  simp only [List.map_map]
  congr 1
  induction s.data with
  | nil => rfl
  | cons c rest ih =>
    simp only [List.map_cons, Function.comp_apply, jsCharLower_idem, ih]

theorem chatFallback_mem (rng : Nat) : chatFallback rng ∈ fallbackResponses := by
  have h : rng % 4 = 0 ∨ rng % 4 = 1 ∨ rng % 4 = 2 ∨ rng % 4 = 3 := by omega
  rcases h with h | h | h | h <;> simp [chatFallback, fallbackResponses, h]

theorem chatFallback_length (rng : Nat) : 5 < (chatFallback rng).length := by
  have h : rng % 4 = 0 ∨ rng % 4 = 1 ∨ rng % 4 = 2 ∨ rng % 4 = 3 := by omega
  rcases h with h | h | h | h <;> simp only [chatFallback, fallbackResponses, h] <;> decide

theorem string_append_assoc (a b c : String) : a ++ b ++ c = a ++ (b ++ c) :=
  String.append_assoc a b c

theorem foldl_serialize_hoist (history : List Turn) (a : String) :
    history.foldl (fun acc msg => acc ++ serializeTurn msg) a = a ++ serializeHistory history := by
  induction history generalizing a with
  | nil => simp [serializeHistory]
  | cons t ts ih =>
    have h2 : serializeHistory (t :: ts) = serializeTurn t ++ serializeHistory ts := by
      simp only [serializeHistory, List.foldl_cons, String.empty_append]
      exact ih (serializeTurn t)
    rw [List.foldl_cons, ih (a ++ serializeTurn t), h2, String.append_assoc]

theorem serializeHistory_cons (t : Turn) (ts : List Turn) :
    serializeHistory (t :: ts) = serializeTurn t ++ serializeHistory ts := by
  simp only [serializeHistory, List.foldl_cons, String.empty_append]
  exact foldl_serialize_hoist ts (serializeTurn t)

theorem handleChat_not_empty_cond (m : String) (hmsg : jsTrim m.data ≠ []) :
    ¬(m = "" ∨ jsTrim m.data = []) := by
  rintro (h | h)
  · subst h; exact hmsg rfl
  · exact hmsg h

theorem handleChat_called (rng : Nat)
    (adapters : BackendId → String → List Turn → Except String String)
    (m : String) (hist : List Turn) (model : Option String)
    (hmsg : jsTrim m.data ≠ []) (hlen : m.length ≤ 2000) :
    (handleChat rng adapters ⟨.str m, hist, model⟩).2 =
      some (selectModel (model.getD ("mistral"))) := by
  have hne := handleChat_not_empty_cond m hmsg
  have hlt : ¬(2000 < m.length) := by omega
  simp only [handleChat, if_neg hne, if_neg hlt]
  cases adapters (selectModel (model.getD ("mistral"))) m hist <;> rfl

theorem handleChat_error (rng : Nat)
    (adapters : BackendId → String → List Turn → Except String String)
    (m : String) (hist : List Turn) (model : Option String) (e : String)
    (hmsg : jsTrim m.data ≠ []) (hlen : m.length ≤ 2000)
    (hthrow : adapters (selectModel (model.getD ("mistral"))) m hist = .error e) :
    (handleChat rng adapters ⟨.str m, hist, model⟩).1 = catchResp rng e := by
  have hne := handleChat_not_empty_cond m hmsg
  have hlt : ¬(2000 < m.length) := by omega
  simp only [handleChat, if_neg hne, if_neg hlt, hthrow]

/-- C1: when the selected backend adapter throws, the chat handler
returns `success:false`, `fallback:true`, and a response drawn from the
fixed chat-level fallback pool, every entry of which is non-empty and
longer than 5 characters; the handler is total, so the adapter's
exception never escapes to the caller. -/
theorem chat_adapter_error_gives_pool_fallback (rng : Nat)
    (adapters : BackendId → String → List Turn → Except String String)
    (m : String) (hist : List Turn) (model : Option String) (e : String)
    (hmsg : jsTrim m.data ≠ []) (hlen : m.length ≤ 2000)
    (hthrow : adapters (selectModel (model.getD ("mistral"))) m hist = .error e) :
    (handleChat rng adapters ⟨.str m, hist, model⟩).1.success = false ∧
    (handleChat rng adapters ⟨.str m, hist, model⟩).1.fallback = true ∧
    (handleChat rng adapters ⟨.str m, hist, model⟩).1.response = some (chatFallback rng) ∧
    chatFallback rng ∈ fallbackResponses ∧ 5 < (chatFallback rng).length := by
  rw [handleChat_error rng adapters m hist model e hmsg hlen hthrow]
  exact ⟨rfl, rfl, rfl, chatFallback_mem rng, chatFallback_length rng⟩

/-- Witness for C1 at the concrete request of the spec's test
(`message: "hi"`, a stub adapter that always throws). -/
theorem chat_adapter_error_gives_pool_fallback_witness :
    (handleChat 0 (fun _ _ _ => .error ("boom")) ⟨.str ("hi"), [], none⟩).1.success = false ∧
    (handleChat 0 (fun _ _ _ => .error ("boom")) ⟨.str ("hi"), [], none⟩).1.fallback = true ∧
    (handleChat 0 (fun _ _ _ => .error ("boom")) ⟨.str ("hi"), [], none⟩).1.response =
      some (chatFallback 0) ∧
    chatFallback 0 ∈ fallbackResponses ∧ 5 < (chatFallback 0).length :=
  chat_adapter_error_gives_pool_fallback 0 (fun _ _ _ => .error ("boom"))
    ("hi") [] none ("boom") (by decide) (by decide) rfl

/-- C4: a message that is empty or whitespace-only after trimming, or
whose trimmed length exceeds 2000 characters, is rejected with a 400
result carrying `success:false` and a suggestion string, and no backend
adapter is invoked. -/
theorem chat_invalid_message_no_backend (rng : Nat)
    (adapters : BackendId → String → List Turn → Except String String)
    (m : String) (hist : List Turn) (model : Option String)
    (h : jsTrim m.data = [] ∨ 2000 < (jsTrim m.data).length) :
    (handleChat rng adapters ⟨.str m, hist, model⟩).1.success = false ∧
    (handleChat rng adapters ⟨.str m, hist, model⟩).1.suggestion ≠ none ∧
    (handleChat rng adapters ⟨.str m, hist, model⟩).1.status = 400 ∧
    (handleChat rng adapters ⟨.str m, hist, model⟩).2 = none := by
  rcases h with h | h
  · have hpos : (m = "" ∨ jsTrim m.data = []) := Or.inr h
    simp [handleChat, if_pos hpos, validationEmptyResp]
  · have hraw : 2000 < m.length := by
      have hle := jsTrim_length_le m.data
      have hdl : m.length = m.data.length := rfl
      omega
    have hne : ¬(m = "" ∨ jsTrim m.data = []) := by
      rintro (he | he)
      · subst he; simp [jsTrim] at h
      · rw [he] at h; simp at h
    simp [handleChat, if_neg hne, if_pos hraw, validationLongResp]

/-- Witness for C4 at a whitespace-only message. -/
theorem chat_invalid_message_no_backend_witness :
    (handleChat 0 (fun _ _ _ => .ok ("answer")) ⟨.str ("   "), [], none⟩).1.success = false ∧
    (handleChat 0 (fun _ _ _ => .ok ("answer")) ⟨.str ("   "), [], none⟩).1.suggestion ≠ none ∧
    (handleChat 0 (fun _ _ _ => .ok ("answer")) ⟨.str ("   "), [], none⟩).1.status = 400 ∧
    (handleChat 0 (fun _ _ _ => .ok ("answer")) ⟨.str ("   "), [], none⟩).2 = none :=
  chat_invalid_message_no_backend 0 (fun _ _ _ => .ok ("answer"))
    ("   ") [] none (Or.inl (by decide))

/-- C5: the handler dispatches `"mistral"`, `"bloom"` and `"gemini"` to
the correspondingly named adapters, and an unrecognised or absent
`model` to the default mistral adapter. -/
theorem chat_dispatch_by_model (rng : Nat)
    (adapters : BackendId → String → List Turn → Except String String)
    (m : String) (hist : List Turn)
    (hmsg : jsTrim m.data ≠ []) (hlen : m.length ≤ 2000) :
    (handleChat rng adapters ⟨.str m, hist, some ("mistral")⟩).2 = some .mistral ∧
    (handleChat rng adapters ⟨.str m, hist, some ("bloom")⟩).2 = some .bloom ∧
    (handleChat rng adapters ⟨.str m, hist, some ("gemini")⟩).2 = some .gemini ∧
    (handleChat rng adapters ⟨.str m, hist, none⟩).2 = some .mistral ∧
    ∀ mid : String, jsToLower mid ≠ ("bloom") → jsToLower mid ≠ ("gemini") →
      (handleChat rng adapters ⟨.str m, hist, some mid⟩).2 = some .mistral := by
  refine ⟨?_, ?_, ?_, ?_, ?_⟩
  · rw [handleChat_called rng adapters m hist _ hmsg hlen]; decide
  · rw [handleChat_called rng adapters m hist _ hmsg hlen]; decide
  · rw [handleChat_called rng adapters m hist _ hmsg hlen]; decide
  · rw [handleChat_called rng adapters m hist _ hmsg hlen]; decide
  · intro mid h1 h2
    rw [handleChat_called rng adapters m hist _ hmsg hlen]
    simp only [Option.getD_some, selectModel, if_neg h1, if_neg h2]

/-- Witness for C5 at `message: "hi"`. -/
theorem chat_dispatch_by_model_witness :
    (handleChat 0 (fun _ _ _ => .ok ("fine")) ⟨.str ("hi"), [], some ("gemini")⟩).2 =
      some .gemini ∧
    (handleChat 0 (fun _ _ _ => .ok ("fine")) ⟨.str ("hi"), [], some ("qwerty")⟩).2 =
      some .mistral :=
  ⟨(chat_dispatch_by_model 0 (fun _ _ _ => .ok ("fine")) ("hi") [] (by decide) (by decide)).2.2.1,
   (chat_dispatch_by_model 0 (fun _ _ _ => .ok ("fine")) ("hi") [] (by decide) (by decide)).2.2.2.2
     ("qwerty") (by decide) (by decide)⟩

/-- C9: when the `message` field is absent or not a string, the
logging line's `message.substring(0, 50)` throws before the emptiness
validation runs, so the handler answers from the generic catch block
(HTTP 200, `success:false`, `fallback:true`, a random pool text, no
suggestion) and never reaches the structured 400 validation error or
any backend adapter. -/
theorem chat_nonstring_message_hits_catch (rng : Nat)
    (adapters : BackendId → String → List Turn → Except String String)
    (hist : List Turn) (model : Option String) :
    (handleChat rng adapters ⟨.nonStr, hist, model⟩).1.status = 200 ∧
    (handleChat rng adapters ⟨.nonStr, hist, model⟩).1.success = false ∧
    (handleChat rng adapters ⟨.nonStr, hist, model⟩).1.fallback = true ∧
    (handleChat rng adapters ⟨.nonStr, hist, model⟩).1.response = some (chatFallback rng) ∧
    chatFallback rng ∈ fallbackResponses ∧
    (handleChat rng adapters ⟨.nonStr, hist, model⟩).1.suggestion = none ∧
    (handleChat rng adapters ⟨.nonStr, hist, model⟩).2 = none :=
  ⟨rfl, rfl, rfl, rfl, chatFallback_mem rng, rfl, rfl⟩

/-- C10: dispatch is case-insensitive — the selector lowercases the
model identifier before matching, and lowercasing is idempotent, so any
model string and its lowercased form select the same backend adapter,
whatever the rest of the request is. -/
theorem chat_dispatch_case_insensitive (m : String) :
    selectModel m = selectModel (jsToLower m) ∧
    ∀ (rng : Nat) (adapters : BackendId → String → List Turn → Except String String)
      (msg : JsVal) (hist : List Turn),
      (handleChat rng adapters ⟨msg, hist, some m⟩).2 =
      (handleChat rng adapters ⟨msg, hist, some (jsToLower m)⟩).2 := by
  have hsel : selectModel m = selectModel (jsToLower m) := by
    simp only [selectModel, jsToLower_idem]
  refine ⟨hsel, ?_⟩
  intro rng adapters msg hist
  cases msg with
  | nonStr => rfl
  | str s =>
    by_cases h1 : s = "" ∨ jsTrim s.data = []
    · simp only [handleChat, if_pos h1]
    · by_cases h2 : 2000 < s.length
      · simp only [handleChat, if_neg h1, if_pos h2]
      · have hmsg : jsTrim s.data ≠ [] := (not_or.mp h1).2
        have hlen : s.length ≤ 2000 := by omega
        rw [handleChat_called rng adapters s hist (some m) hmsg hlen,
          handleChat_called rng adapters s hist (some (jsToLower m)) hmsg hlen]
        simp only [Option.getD_some, hsel]

/-- C6: the Gemini `contents` array is the two-entry priming exchange,
then at most the last 4 history turns mapped into the user/model role
vocabulary, then the current message as a final user turn; with 10
history turns the window is exactly the last 4 (turns 7-10). -/
theorem gemini_contents_structure (m : String) (hist : List Turn) :
    buildGeminiContents m hist =
      geminiPriming ++ (hist.drop (hist.length - 4)).map turnToGemini ++
        [⟨("user"), m⟩] ∧
    (jsSliceLast4 hist).length ≤ 4 ∧
    (∀ c ∈ (jsSliceLast4 hist).map turnToGemini,
      c.role = ("user") ∨ c.role = ("model")) ∧
    (hist.length = 10 → jsSliceLast4 hist = hist.drop 6) := by
  refine ⟨rfl, ?_, ?_, ?_⟩
  · simp only [jsSliceLast4, List.length_drop]
    omega
  · intro c hc
    rw [List.mem_map] at hc
    obtain ⟨t, _, ht⟩ := hc
    rw [← ht]
    simp only [turnToGemini]
    split
    · exact Or.inl rfl
    · exact Or.inr rfl
  · intro h10
    simp only [jsSliceLast4, h10]

/-- Witness for C6: with a concrete 10-turn history, the window the
builder keeps is exactly the final 4 turns. -/
theorem gemini_contents_structure_witness :
    jsSliceLast4 (List.replicate 10 (Turn.mk ("user") ("x"))) =
      List.drop 6 (List.replicate 10 (Turn.mk ("user") ("x"))) ∧
    buildGeminiContents ("q") (List.replicate 10 (Turn.mk ("user") ("x"))) =
      geminiPriming ++
        ((List.replicate 10 (Turn.mk ("user") ("x"))).drop 6).map turnToGemini ++
        [⟨("user"), ("q")⟩] := by
  have h := gemini_contents_structure ("q") (List.replicate 10 (Turn.mk ("user") ("x")))
  have hw := h.2.2.2 (by decide)
  refine ⟨hw, ?_⟩
  rw [h.1]
  have hd : (List.replicate 10 (Turn.mk ("user") ("x"))).drop
      ((List.replicate 10 (Turn.mk ("user") ("x"))).length - 4) =
      (List.replicate 10 (Turn.mk ("user") ("x"))).drop 6 := hw
  rw [hd]

/-- C7: the Mistral prompt builder is a pure function — identical
inputs give byte-identical text — and its output decomposes as the
fixed persona preamble, the history turns serialized in chronological
order with their role markers, then the current message in the same
instruction markers. -/
theorem mistral_prompt_deterministic_structure (m : String) (hist : List Turn) :
    formatMistralPrompt m hist = formatMistralPrompt m hist ∧
    formatMistralPrompt m hist =
      mistralPreamble ++ serializeHistory hist ++ ("<s>[INST] ") ++ m ++ (" [/INST]") ∧
    ∀ (t : Turn) (ts : List Turn),
      serializeHistory (t :: ts) = serializeTurn t ++ serializeHistory ts := by
  refine ⟨rfl, ?_, serializeHistory_cons⟩
  unfold formatMistralPrompt
  rw [foldl_serialize_hoist hist mistralPreamble]

/-- C8: the sanitizer removes the exact leading echo of the original
prompt, strips `[INST]...[/INST]` and `<s>`/`</s>` markers, and trims —
so for any prompt `p` and any continuation `s` free of those markers,
sanitizing `p ++ s` against `p` returns `s` trimmed. -/
theorem sanitize_removes_prompt_echo (p s : String)
    (h1 : occurs instOpenTok s.data = false)
    (h2 : occurs instCloseTok s.data = false)
    (h3 : occurs sOpenTok s.data = false)
    (h4 : occurs sCloseTok s.data = false) :
    sanitizeMistral (p ++ s) p = jsTrimStr s := by
  unfold sanitizeMistral
  rw [String.data_append, removeFirst_append_self,
    removeInst_of_not_occurs s.data h1, removeTokens_of_not_occurs s.data h3 h4]
  rfl

/-- Witness for C8: `sanitize(prompt + "Hello there", prompt)` is
exactly `"Hello there"`. -/
theorem sanitize_removes_prompt_echo_witness :
    sanitizeMistral (("Question: hi\nAnswer:") ++ ("Hello there")) ("Question: hi\nAnswer:") =
      ("Hello there") := by
  rw [sanitize_removes_prompt_echo ("Question: hi\nAnswer:") ("Hello there")
    (by decide) (by decide) (by decide) (by decide)]
  decide

theorem handleChat_ok (rng : Nat)
    (adapters : BackendId → String → List Turn → Except String String)
    (m : String) (hist : List Turn) (model : Option String) (t : String)
    (hmsg : jsTrim m.data ≠ []) (hlen : m.length ≤ 2000)
    (hok : adapters (selectModel (model.getD ("mistral"))) m hist = .ok t) :
    (handleChat rng adapters ⟨.str m, hist, model⟩).1 =
      successResp t (model.getD ("mistral")) := by
  have hne := handleChat_not_empty_cond m hmsg
  have hlt : ¬(2000 < m.length) := by omega
  simp only [handleChat, if_neg hne, if_neg hlt, hok]

/-- Adapter table in which every backend behaves as the real
`callMistral` over the fixed network outcome `net`. -/
def mistralNetAdapters (net : Except String String) (rng : Nat) :
    BackendId → String → List Turn → Except String String :=
  fun _ msg hist => callMistral net rng msg hist

/-- Counterexample to C2: the backend replies with the prompt echo plus
`"Hi"`, whose sanitized form is `"Hi"` (2 < 5 characters, a degenerate
output) — yet the handler's response reports `success:true` and carries
no `fallback` flag, because `callMistral` returns the substituted
friendly text as a normal value. -/
theorem degenerate_output_reports_success_counterexample :
    sanitizeMistral (formatMistralPrompt ("hello") [] ++ ("Hi"))
        (formatMistralPrompt ("hello") []) = ("Hi") ∧
    (("Hi") : String).length < 5 ∧
    (handleChat 3 (mistralNetAdapters (.ok (formatMistralPrompt ("hello") [] ++ ("Hi"))) 3)
        ⟨.str ("hello"), [], none⟩).1.success = true ∧
    (handleChat 3 (mistralNetAdapters (.ok (formatMistralPrompt ("hello") [] ++ ("Hi"))) 3)
        ⟨.str ("hello"), [], none⟩).1.fallback = false := by
  have hsan : sanitizeMistral (formatMistralPrompt ("hello") [] ++ ("Hi"))
      (formatMistralPrompt ("hello") []) = ("Hi") := by
    unfold sanitizeMistral
    rw [String.data_append, removeFirst_append_self,
      removeInst_of_not_occurs _ (by decide), removeTokens_of_not_occurs _ (by decide) (by decide)]
    decide
  have hcall : callMistral (.ok (formatMistralPrompt ("hello") [] ++ ("Hi"))) 3 ("hello") [] =
      .ok (getFriendlyFallback 3 ("hello")) := by
    simp only [callMistral, hsan]
    rw [if_pos (by decide)]
  have hok : mistralNetAdapters (.ok (formatMistralPrompt ("hello") [] ++ ("Hi"))) 3
      (selectModel ((none : Option String).getD ("mistral"))) ("hello") [] =
      .ok (getFriendlyFallback 3 ("hello")) := hcall
  refine ⟨hsan, by decide, ?_, ?_⟩ <;>
    rw [handleChat_ok 3 _ ("hello") [] none _ (by decide) (by decide) hok] <;> rfl

/-- C2 as amended: `fallback:true` (with `success:false`) is produced
when the adapter throws; but when the backend's sanitized output is
shorter than 5 characters, `callMistral` substitutes the
context-flavored friendly text and the handler reports `success:true`
with no `fallback` flag. -/
theorem degenerate_output_reports_success (rng : Nat) (m : String) (hist : List Turn)
    (raw e : String)
    (hmsg : jsTrim m.data ≠ []) (hlen : m.length ≤ 2000)
    (hshort : (sanitizeMistral raw (formatMistralPrompt m hist)).length < 5) :
    ((handleChat rng (mistralNetAdapters (.ok raw) rng) ⟨.str m, hist, none⟩).1.success = true ∧
     (handleChat rng (mistralNetAdapters (.ok raw) rng) ⟨.str m, hist, none⟩).1.fallback = false ∧
     (handleChat rng (mistralNetAdapters (.ok raw) rng) ⟨.str m, hist, none⟩).1.response =
       some (getFriendlyFallback rng m)) ∧
    ((handleChat rng (mistralNetAdapters (.error e) rng) ⟨.str m, hist, none⟩).1.fallback = true ∧
     (handleChat rng (mistralNetAdapters (.error e) rng) ⟨.str m, hist, none⟩).1.success = false) := by
  have hne := handleChat_not_empty_cond m hmsg
  have hlt : ¬(2000 < m.length) := by omega
  have hcall : callMistral (.ok raw) rng m hist = .ok (getFriendlyFallback rng m) := by
    simp only [callMistral]
    rw [if_pos hshort]
  have hok : mistralNetAdapters (.ok raw) rng
      (selectModel ((none : Option String).getD ("mistral"))) m hist =
      .ok (getFriendlyFallback rng m) := hcall
  constructor
  · rw [handleChat_ok rng _ m hist none _ hmsg hlen hok]
    exact ⟨rfl, rfl, rfl⟩
  · have herr : mistralNetAdapters (.error e) rng
        (selectModel ((none : Option String).getD ("mistral"))) m hist = .error e := rfl
    rw [handleChat_error rng _ m hist none e hmsg hlen herr]
    exact ⟨rfl, rfl⟩

/-- Witness for the amended C2 at the concrete degenerate input of the
counterexample (and a concrete thrown error). -/
theorem degenerate_output_reports_success_witness :
    ((handleChat 5 (mistralNetAdapters (.ok (formatMistralPrompt ("oi") [] ++ ("Hm"))) 5)
        ⟨.str ("oi"), [], none⟩).1.success = true ∧
     (handleChat 5 (mistralNetAdapters (.ok (formatMistralPrompt ("oi") [] ++ ("Hm"))) 5)
        ⟨.str ("oi"), [], none⟩).1.fallback = false ∧
     (handleChat 5 (mistralNetAdapters (.ok (formatMistralPrompt ("oi") [] ++ ("Hm"))) 5)
        ⟨.str ("oi"), [], none⟩).1.response = some (getFriendlyFallback 5 ("oi"))) ∧
    ((handleChat 5 (mistralNetAdapters (.error ("down")) 5) ⟨.str ("oi"), [], none⟩).1.fallback = true ∧
     (handleChat 5 (mistralNetAdapters (.error ("down")) 5) ⟨.str ("oi"), [], none⟩).1.success = false) := by
  have hshort : (sanitizeMistral (formatMistralPrompt ("oi") [] ++ ("Hm"))
      (formatMistralPrompt ("oi") [])).length < 5 := by
    have hsan : sanitizeMistral (formatMistralPrompt ("oi") [] ++ ("Hm"))
        (formatMistralPrompt ("oi") []) = ("Hm") := by
      unfold sanitizeMistral
      rw [String.data_append, removeFirst_append_self,
        removeInst_of_not_occurs _ (by decide), removeTokens_of_not_occurs _ (by decide) (by decide)]
      decide
    rw [hsan]
    decide
  exact degenerate_output_reports_success 5 ("oi") [] (formatMistralPrompt ("oi") [] ++ ("Hm"))
    ("down") (by decide) (by decide) hshort

/-- Counterexample to C3: with an adapter that throws the raw provider
error `"Hugging Face error: 500 - upstream failure"`, the returned JSON
carries exactly that raw string in its `error` field — a field of the
response the caller reads — and that string is not one of the
conversational pool texts. -/
theorem raw_error_in_response_counterexample :
    (handleChat 0 (fun _ _ _ => .error ("Hugging Face error: 500 - upstream failure"))
        ⟨.str ("hi"), [], none⟩).1.error =
      some ("Hugging Face error: 500 - upstream failure") ∧
    (("Hugging Face error: 500 - upstream failure") : String) ∉ fallbackResponses := by
  constructor
  · rw [handleChat_error 0 _ ("hi") [] none ("Hugging Face error: 500 - upstream failure")
      (by decide) (by decide) rfl]
    rfl
  · decide

/-- C3 as amended: on an absorbed backend failure the user-facing
`response` text is always drawn from the fixed conversational pool and
never the raw error string — but the returned JSON also exposes the raw
error message verbatim in its `error` field. -/
theorem chat_error_text_conversational_error_field_raw (rng : Nat)
    (adapters : BackendId → String → List Turn → Except String String)
    (m : String) (hist : List Turn) (model : Option String) (e : String)
    (hmsg : jsTrim m.data ≠ []) (hlen : m.length ≤ 2000)
    (hthrow : adapters (selectModel (model.getD ("mistral"))) m hist = .error e) :
    (handleChat rng adapters ⟨.str m, hist, model⟩).1.response = some (chatFallback rng) ∧
    chatFallback rng ∈ fallbackResponses ∧
    (handleChat rng adapters ⟨.str m, hist, model⟩).1.error = some e := by
  rw [handleChat_error rng adapters m hist model e hmsg hlen hthrow]
  exact ⟨rfl, chatFallback_mem rng, rfl⟩

/-- Witness for the amended C3 at a concrete throwing adapter. -/
theorem chat_error_text_conversational_error_field_raw_witness :
    (handleChat 1 (fun _ _ _ => .error ("boom")) ⟨.str ("hi"), [], none⟩).1.response =
      some (chatFallback 1) ∧
    chatFallback 1 ∈ fallbackResponses ∧
    (handleChat 1 (fun _ _ _ => .error ("boom")) ⟨.str ("hi"), [], none⟩).1.error =
      some ("boom") :=
  chat_error_text_conversational_error_field_raw 1 (fun _ _ _ => .error ("boom"))
    ("hi") [] none ("boom") (by decide) (by decide) rfl
